import Mathlib

/-!
Verification of the `useGoogleSheets` hook (src/hooks/use-google.sheet.tsx).

The hook is embedded shallowly:

* `JSVal` models the JavaScript values that can appear in a submitted record
  (strings, integer numbers, booleans, `null`, `undefined`); `truthy` and
  `jsToString` model JavaScript truthiness and `String(·)` coercion, and
  `jsTrim` models JavaScript's `trim`.
* A `Record` is an insertion-ordered association list, matching the key order
  that `Object.entries` and `for const field of validateRequired` iterate in.
* Effects are made explicit: `Config` carries the four options of the hook,
  where the caller-supplied callbacks and transform may throw (`Option Thrown`
  and `Except Thrown` results); `Env` carries the environment variable read at
  call time and oracles saying whether `new URL(scriptUrl)` and `fetch` throw.
* `submitToSheet cfg env data` returns a `SubmitResult`: the final reactive
  state (after the `finally` clause), the list of fetch calls issued (endpoint
  together with the query parameters appended by `searchParams.append`), the
  invocations of `onSuccess` and `onError`, and `rejected`, which is `some t`
  exactly when the returned promise rejects with `t` (an exception escaping
  the `catch` block, i.e. thrown by the caller-supplied `onError`).
-/

namespace GoogleSheets

/-- JavaScript values appearing in submitted records. Numbers are modelled as
integers; `NaN` and non-integral floats are outside the model. -/
inductive JSVal where
  | str : String → JSVal
  | num : Int → JSVal
  | boolean : Bool → JSVal
  | null : JSVal
  | undefined : JSVal
deriving DecidableEq

/-- JavaScript truthiness of a `JSVal`: `""`, `0`, `false`, `null` and
`undefined` are falsy, everything else is truthy. -/
def truthy : JSVal → Bool
  | .str s => !(s == "")
  | .num n => !(n == 0)
  | .boolean b => b
  | .null => false
  | .undefined => false

/-- JavaScript `String(·)` coercion on the modelled values. -/
def jsToString : JSVal → String
  | .str s => s
  | .num n => toString n
  | .boolean b => if b then "true" else "false"
  | .null => "null"
  | .undefined => "undefined"

/-- JavaScript `trim()`: drop whitespace from both ends of the string. -/
def jsTrim (s : String) : String :=
  (((s.data.dropWhile Char.isWhitespace).reverse.dropWhile Char.isWhitespace).reverse).asString

/-- A record: an insertion-ordered mapping from field names to values
(`Object.entries` order). Keys are assumed unique, as in an object literal. -/
abbrev Record := List (String × JSVal)

/-- Property access `data[field]`: the value stored at `field`, or
`undefined` when the field is absent. -/
def getField (data : Record) (field : String) : JSVal :=
  match List.lookup field data with
  | some v => v
  | none => JSVal.undefined

/-- A thrown JavaScript value: either an `Error` instance carrying its
`message`, or any other value (`instanceof Error` fails). -/
inductive Thrown where
  | errObj : String → Thrown
  | other : JSVal → Thrown
deriving DecidableEq

/-- The message extracted in the `catch` block:
`err instanceof Error ? err.message : "Failed to submit data"`. -/
def errorMessageFor : Thrown → String
  | .errObj m => m
  | .other _ => "Failed to submit data"

/-- The value passed to `onError`:
`err instanceof Error ? err : new Error(errorMessage)`. For an `Error` this is
the error itself, whose message is `errorMessageFor`; otherwise a fresh
`Error` wrapping the fallback message. Either way the result is
`errObj (errorMessageFor t)`. -/
def wrapError (t : Thrown) : Thrown :=
  Thrown.errObj (errorMessageFor t)

/-- The hook options (`UseGoogleSheetsOptions`). Caller-supplied code may
throw: a callback returning `some t` throws `t`, the transform returning
`Except.error t` throws `t`. -/
structure Config where
  onSuccess : Option (Record → Option Thrown)
  onError : Option (Thrown → Option Thrown)
  validateRequired : List String
  transformData : Option (Record → Except Thrown Record)

/-- The ambient environment of one `submitToSheet` call:
the `NEXT_PUBLIC_GOOGLE_SCRIPT_URL` environment variable (`none` when unset),
and oracles telling whether `new URL(scriptUrl)` and `fetch` throw on this
call, and with what value. -/
structure Env where
  scriptUrl : Option String
  newURLThrows : Option Thrown
  fetchThrows : Option Thrown

/-- The hook's reactive state triple. -/
structure SheetState where
  isSubmitting : Bool
  error : Option String
  success : Bool
deriving DecidableEq

/-- The observable outcome of one `submitToSheet` call: final state, fetch
calls issued (endpoint and appended query parameters), callback invocations,
and the rejection value of the returned promise, if any. -/
structure SubmitResult where
  state : SheetState
  fetches : List (String × List (String × String))
  successCalls : List Record
  errorCalls : List Thrown
  rejected : Option Thrown
deriving DecidableEq

/-- The `validateData` helper: walk `validateRequired` in order and return the
first failure message, where a field fails when
`!data[field] || String(data[field]).trim() === ""`. -/
def validateData (validateRequired : List String) (data : Record) : Option String :=
  match validateRequired with
  | [] => none
  | field :: rest =>
    if !(truthy (getField data field)) || jsTrim (jsToString (getField data field)) == "" then
      some (field ++ " is required")
    else
      validateData rest data

/-- The environment check `if (!scriptUrl)`: the variable is unset, or set to
the empty string (both are falsy). -/
def scriptUrlMissing : Option String → Bool
  | none => true
  | some s => s == ""

/-- Query-parameter serialization: for each entry of the (possibly
transformed) mapping, `url.searchParams.append(key, String(value || ""))`. -/
def serializeParams (finalData : Record) : List (String × String) :=
  finalData.map (fun kv => (kv.1, jsToString (if truthy kv.2 then kv.2 else JSVal.str "")))

/-- The transform step: `transformData ? transformData(data) : data`, where a
supplied transform may throw. -/
def applyTransform (cfg : Config) (data : Record) : Except Thrown Record :=
  match cfg.transformData with
  | some f => f data
  | none => Except.ok data

/-- The `catch` block, entered with thrown value `t` while `success` holds
`successFlag` and the given fetches and `onSuccess` calls have happened:
sets `error` to the extracted message, invokes `onError` when supplied
(whose own throw escapes and rejects the promise), and the `finally` clause
clears `isSubmitting`. -/
def runCatch (cfg : Config) (t : Thrown) (successFlag : Bool)
    (fetches : List (String × List (String × String)))
    (successCalls : List Record) : SubmitResult :=
  match cfg.onError with
  | none =>
    { state := { isSubmitting := false, error := some (errorMessageFor t), success := successFlag }
      fetches := fetches, successCalls := successCalls, errorCalls := [], rejected := none }
  | some cb =>
    { state := { isSubmitting := false, error := some (errorMessageFor t), success := successFlag }
      fetches := fetches, successCalls := successCalls
      errorCalls := [wrapError t], rejected := cb (wrapError t) }

/-- The fixed configuration-missing message. -/
def configErrorMessage : String :=
  "Google Script URL not configured in environment variables"

/-- The `submitToSheet` function of the hook, step for step:
set submitting state, validate, read and check the environment variable, then
inside `try`: construct the URL, apply the transform, append all entries as
query parameters, `fetch`, set `success` and call `onSuccess`; `catch` records
the error and calls `onError`; `finally` clears `isSubmitting`. -/
def submitToSheet (cfg : Config) (env : Env) (data : Record) : SubmitResult :=
  match validateData cfg.validateRequired data with
  | some msg =>
    { state := { isSubmitting := false, error := some msg, success := false }
      fetches := [], successCalls := [], errorCalls := [], rejected := none }
  | none =>
    if scriptUrlMissing env.scriptUrl then
      { state := { isSubmitting := false, error := some configErrorMessage, success := false }
        fetches := [], successCalls := [], errorCalls := [], rejected := none }
    else
      match env.newURLThrows with
      | some t => runCatch cfg t false [] []
      | none =>
        match applyTransform cfg data with
        | Except.error t => runCatch cfg t false [] []
        | Except.ok finalData =>
          let url := (env.scriptUrl.getD "", serializeParams finalData)
          match env.fetchThrows with
          | some t => runCatch cfg t false [url] []
          | none =>
            match cfg.onSuccess with
            | none =>
              { state := { isSubmitting := false, error := none, success := true }
                fetches := [url], successCalls := [], errorCalls := [], rejected := none }
            | some cb =>
              match cb data with
              | none =>
                { state := { isSubmitting := false, error := none, success := true }
                  fetches := [url], successCalls := [data], errorCalls := [], rejected := none }
              | some t => runCatch cfg t true [url] [data]

/-- The `reset` callback: `setError(null); setSuccess(false)` — nothing else,
in particular `isSubmitting` is untouched and no callback or network call is
made. Modelled as the induced pure map on the state triple. -/
def reset (st : SheetState) : SheetState :=
  { st with error := none, success := false }

/-- The state installed by `useState` at instantiation (idle). -/
def initialState : SheetState :=
  { isSubmitting := false, error := none, success := false }

/-- The state in force while a submission is running, after step 1 of
`submitToSheet` (`setIsSubmitting(true); setError(null); setSuccess(false)`). -/
def submittingState : SheetState :=
  { isSubmitting := true, error := none, success := false }

/-- JavaScript truthiness of the `error` field (`string | null`): truthy
exactly when it is a non-null, non-empty string. -/
def strTruthy : Option String → Bool
  | none => false
  | some s => !(s == "")

/-- The failure condition of the validation loop, as the code tests it for a
single field: `!data[field] || String(data[field]).trim() === ""`. -/
def fieldInvalid (data : Record) (field : String) : Bool :=
  !(truthy (getField data field)) || jsTrim (jsToString (getField data field)) == ""

/-- Whether the record has an entry for the field at all (used only to state
the claims' notion of an absent field). -/
def hasField (data : Record) (field : String) : Bool :=
  (List.lookup field data).isSome

/-- Modelled from the claims' wording, for comparison with `fieldInvalid`:
a required field fails when it is absent or its trimmed string form is
empty. -/
def claimFieldMissingOrBlank (data : Record) (field : String) : Bool :=
  !(hasField data field) || jsTrim (jsToString (getField data field)) == ""

/-- Modelled from the claims' wording, for comparison with
`serializeParams`: stringify each value, substituting the empty string
exactly for `null` and `undefined`. -/
def claimSerialize (finalData : Record) : List (String × String) :=
  finalData.map (fun kv =>
    (kv.1, match kv.2 with
      | JSVal.null => ""
      | JSVal.undefined => ""
      | v => jsToString v))

/-- A configuration with no callbacks, no required fields and no transform. -/
def cfgPlain : Config :=
  { onSuccess := none, onError := none, validateRequired := [], transformData := none }

/-- A configuration requiring `name` and `email`. -/
def cfgReq : Config :=
  { onSuccess := none, onError := none
    validateRequired := ["name", "email"], transformData := none }

/-- A configuration requiring the single field `x`. -/
def cfgReqX : Config :=
  { onSuccess := none, onError := none, validateRequired := ["x"], transformData := none }

/-- A configuration whose `onSuccess` callback throws. -/
def cfgThrowingSuccess : Config :=
  { onSuccess := some (fun _ => some (Thrown.errObj "callback exploded"))
    onError := none, validateRequired := [], transformData := none }

/-- A configuration whose `onSuccess` callback throws, used for the success
claim. -/
def cfgThrowingSuccess2 : Config :=
  { onSuccess := some (fun _ => some (Thrown.errObj "boom"))
    onError := none, validateRequired := [], transformData := none }

/-- A configuration whose `onSuccess` callback throws while a non-throwing
`onError` is installed. -/
def cfgThrowingSuccessHandled : Config :=
  { onSuccess := some (fun _ => some (Thrown.errObj "late failure"))
    onError := some (fun _ => none), validateRequired := [], transformData := none }

/-- A configuration whose `onError` callback itself throws. -/
def cfgThrowingOnError : Config :=
  { onSuccess := none, onError := some (fun _ => some (Thrown.errObj "onError exploded"))
    validateRequired := [], transformData := none }

/-- A configuration with a non-throwing `onError` callback only. -/
def cfgWithOnError : Config :=
  { onSuccess := none, onError := some (fun _ => none)
    validateRequired := [], transformData := none }

/-- A configuration with non-throwing `onSuccess` and `onError` callbacks. -/
def cfgWithCallbacks : Config :=
  { onSuccess := some (fun _ => none), onError := some (fun _ => none)
    validateRequired := [], transformData := none }

/-- A configuration whose transform replaces the record by
`[("n", "A"), ("a", 5)]` (the spec's transform scenario). -/
def cfgTransform : Config :=
  { onSuccess := none, onError := none, validateRequired := []
    transformData := some (fun _ => Except.ok [("n", JSVal.str "A"), ("a", JSVal.num 5)]) }

/-- An environment with the endpoint configured and a transport that does not
throw. -/
def envPlain : Env :=
  { scriptUrl := some "https://example.com", newURLThrows := none, fetchThrows := none }

/-- An environment with no endpoint configured. -/
def envNoUrl : Env :=
  { scriptUrl := none, newURLThrows := none, fetchThrows := none }

/-- An environment where the endpoint is configured but `fetch` throws a
network error. -/
def envFetchFails : Env :=
  { scriptUrl := some "https://example.com", newURLThrows := none
    fetchThrows := some (Thrown.errObj "network down") }

/- ------------------------------------------------------------------ -/
/- Helper lemmas                                                      -/
/- ------------------------------------------------------------------ -/

/-- A validation message is never the empty string, whatever the field name. -/
theorem required_message_ne_empty (f : String) : ((f ++ " is required") == "") = false := by
  rw [beq_eq_false_iff_ne]
  intro h
  have h2 := congrArg String.length h
  simp [String.length_append] at h2
  exact absurd h2.2 (by decide)

/-- Every failure message of `validateData` has the shape
`<field> is required`. -/
theorem validateData_some_shape (req : List String) (data : Record) (m : String)
    (h : validateData req data = some m) : ∃ f, m = f ++ " is required" := by
  induction req with
  | nil => simp [validateData] at h
  | cons f rest ih =>
    unfold validateData at h
    split at h
    · exact ⟨f, (Option.some.injEq _ _ ▸ h).symm⟩
    · exact ih h

/-- The validation loop returns the message of the first field failing the
code's test, in declared order. -/
theorem validateData_eq_find (req : List String) (data : Record) :
    validateData req data
      = (List.find? (fieldInvalid data) req).map (fun f => f ++ " is required") := by
  induction req with
  | nil => rfl
  | cons f rest ih =>
    unfold validateData
    rw [List.find?]
    unfold fieldInvalid
    split
    · next h => rw [h]; rfl
    · next h =>
      rw [Bool.not_eq_true] at h
      rw [h]
      exact ih

/-- The state left behind by the `catch`/`finally` blocks. -/
theorem runCatch_state (cfg : Config) (t : Thrown) (flag : Bool)
    (fs : List (String × List (String × String))) (sc : List Record) :
    (runCatch cfg t flag fs sc).state
      = { isSubmitting := false, error := some (errorMessageFor t), success := flag } := by
  unfold runCatch
  cases cfg.onError <;> rfl

/-- The `onError` invocations of the `catch` block: exactly one when the
callback is supplied, none otherwise. -/
theorem runCatch_errorCalls (cfg : Config) (t : Thrown) (flag : Bool)
    (fs : List (String × List (String × String))) (sc : List Record) :
    (runCatch cfg t flag fs sc).errorCalls
      = (match cfg.onError with | some _ => [wrapError t] | none => []) := by
  unfold runCatch
  cases cfg.onError <;> rfl

/-- The `catch` block does not change which fetches happened. -/
theorem runCatch_fetches (cfg : Config) (t : Thrown) (flag : Bool)
    (fs : List (String × List (String × String))) (sc : List Record) :
    (runCatch cfg t flag fs sc).fetches = fs := by
  unfold runCatch
  cases cfg.onError <;> rfl

/-- The `catch` block does not change which `onSuccess` calls happened. -/
theorem runCatch_successCalls (cfg : Config) (t : Thrown) (flag : Bool)
    (fs : List (String × List (String × String))) (sc : List Record) :
    (runCatch cfg t flag fs sc).successCalls = sc := by
  unfold runCatch
  cases cfg.onError <;> rfl

/-- When the supplied `onError` callback never throws, the `catch` block
swallows the exception and the promise does not reject. -/
theorem runCatch_rejected (cfg : Config) (t : Thrown) (flag : Bool)
    (fs : List (String × List (String × String))) (sc : List Record)
    (h : ∀ cb t', cfg.onError = some cb → cb t' = none) :
    (runCatch cfg t flag fs sc).rejected = none := by
  unfold runCatch
  cases hcb : cfg.onError with
  | none => rfl
  | some cb => exact h cb (wrapError t) hcb

/-- A failing transform step exhibits the supplied transform and its thrown
value. -/
theorem applyTransform_error (cfg : Config) (data : Record) (t : Thrown)
    (h : applyTransform cfg data = Except.error t) :
    ∃ f, cfg.transformData = some f ∧ f data = Except.error t := by
  unfold applyTransform at h
  cases hf : cfg.transformData with
  | none => rw [hf] at h; cases h
  | some f => rw [hf] at h; exact ⟨f, rfl, h⟩

/-- `serializeParams` written the way the spec phrases it: one parameter per
entry, in order, the value stringified unless falsy, in which case empty. -/
theorem serializeParams_eq_map (d : Record) :
    serializeParams d
      = d.map (fun kv => (kv.1, if truthy kv.2 then jsToString kv.2 else "")) := by
  unfold serializeParams
  apply List.map_congr_left
  intro kv _
  by_cases h : truthy kv.2 = true
  · rw [h]; simp
  · rw [Bool.not_eq_true] at h; rw [h]; simp [jsToString]

/-- When validation passes, the endpoint is configured and URL construction
does not throw, exactly one fetch is issued, to the endpoint with the
serialized (possibly transformed) mapping — whatever the transport and the
callbacks then do. -/
theorem submit_fetches_of_ok (cfg : Config) (env : Env) (data : Record) (u : String)
    (fd : Record)
    (hval : validateData cfg.validateRequired data = none)
    (hurl : env.scriptUrl = some u)
    (hu : (u == "") = false)
    (hnew : env.newURLThrows = none)
    (htr : applyTransform cfg data = Except.ok fd) :
    (submitToSheet cfg env data).fetches = [(u, serializeParams fd)] := by
  cases hfetch : env.fetchThrows with
  | some t =>
    simp [submitToSheet, hval, hurl, scriptUrlMissing, hu, hnew, htr, hfetch, runCatch_fetches]
  | none =>
    cases hcb : cfg.onSuccess with
    | none => simp [submitToSheet, hval, hurl, scriptUrlMissing, hu, hnew, htr, hfetch, hcb]
    | some cb =>
      cases hcd : cb data with
      | none => simp [submitToSheet, hval, hurl, scriptUrlMissing, hu, hnew, htr, hfetch, hcb, hcd]
      | some t =>
        simp [submitToSheet, hval, hurl, scriptUrlMissing, hu, hnew, htr, hfetch, hcb, hcd,
          runCatch_fetches]

/- ------------------------------------------------------------------ -/
/- Claims                                                             -/
/- ------------------------------------------------------------------ -/

/-- Claim C1, counterexample. The claim says the empty string is substituted
exactly for `null` and `undefined`; but `String(value || "")` blanks every
falsy value. At the valid record `{a: 0}` (no required fields, no transform,
endpoint configured) the appended parameter is `a=""`, while the claim's
serialization yields `a="0"`. -/
theorem C1_cex_zero_value_blanked :
    (submitToSheet cfgPlain envPlain [("a", JSVal.num 0)]).fetches
      = [("https://example.com", [("a", "")])]
    ∧ claimSerialize [("a", JSVal.num 0)] = [("a", "0")]
    ∧ ([(("a" : String), ("" : String))] : List (String × String)) ≠ [("a", "0")] := by
  refine ⟨?_, ?_, ?_⟩ <;> decide

/-- Claim C1, amended: for every record that passes required-field
validation, with an endpoint configured, a well-formed URL and no transform,
the query parameters of the constructed URL equal the record's own key/value
pairs, one parameter per key in insertion order, each value coerced to its
string form with the empty string substituted for every falsy value
(`null`, `undefined`, `0`, `false`, `""`), the string form otherwise. -/
theorem C1_params_blank_all_falsy (cfg : Config) (env : Env) (data : Record) (u : String)
    (hval : validateData cfg.validateRequired data = none)
    (hurl : env.scriptUrl = some u)
    (hu : (u == "") = false)
    (htr : cfg.transformData = none)
    (hnew : env.newURLThrows = none) :
    (submitToSheet cfg env data).fetches
      = [(u, data.map (fun kv => (kv.1, if truthy kv.2 then jsToString kv.2 else "")))] := by
  have happ : applyTransform cfg data = Except.ok data := by
    unfold applyTransform; rw [htr]
  rw [submit_fetches_of_ok cfg env data u data hval hurl hu hnew happ,
    serializeParams_eq_map]

/-- Claim C1, witness: a record with a truthy and a falsy value, submitted
with no required fields and no transform. -/
theorem C1_params_blank_all_falsy_witness :
    validateData cfgPlain.validateRequired [("a", JSVal.str "hi"), ("b", JSVal.num 0)] = none
    ∧ (submitToSheet cfgPlain envPlain [("a", JSVal.str "hi"), ("b", JSVal.num 0)]).fetches
      = [("https://example.com",
          [("a", JSVal.str "hi"), ("b", JSVal.num 0)].map
            (fun kv => (kv.1, if truthy kv.2 then jsToString kv.2 else "")))] :=
  ⟨by decide,
   C1_params_blank_all_falsy cfgPlain envPlain [("a", JSVal.str "hi"), ("b", JSVal.num 0)]
     "https://example.com" (by decide) rfl (by decide) rfl rfl⟩

/-- Claim C2, counterexample. The claim says validation fails exactly when a
required field is absent or its trimmed string form is empty. The record
`{x: 0}` has the required field `x` present with non-empty trimmed string
form `"0"`, yet the code's `!data[field]` truthiness test rejects it. -/
theorem C2_cex_zero_fails_validation :
    validateData ["x"] [("x", JSVal.num 0)] = some "x is required"
    ∧ claimFieldMissingOrBlank [("x", JSVal.num 0)] "x" = false
    ∧ (submitToSheet cfgReqX envPlain [("x", JSVal.num 0)]).state.error
        = some "x is required"
    ∧ (submitToSheet cfgReqX envPlain [("x", JSVal.num 0)]).fetches = [] := by
  refine ⟨?_, ?_, ?_, ?_⟩ <;> decide

/-- Claim C2, amended: submit fails validation exactly when some required
field's looked-up value (`undefined` when absent) is falsy or has an empty
trimmed string form; on the first such field in declared order it sets
`error` to `<field> is required`, clears `submitting`, returns, and makes no
network call and no callback invocation. -/
theorem C2_first_falsy_or_blank_field (cfg : Config) (env : Env) (data : Record) :
    validateData cfg.validateRequired data
      = (List.find? (fieldInvalid data) cfg.validateRequired).map
          (fun f => f ++ " is required")
    ∧ (∀ m, validateData cfg.validateRequired data = some m →
        submitToSheet cfg env data
          = { state := { isSubmitting := false, error := some m, success := false }
              fetches := [], successCalls := [], errorCalls := [], rejected := none }) := by
  refine ⟨validateData_eq_find _ _, ?_⟩
  intro m hm
  unfold submitToSheet
  rw [hm]

/-- Claim C2, witness: `requiredFields = ["name", "email"]` and a record whose
`name` is the empty string fails with `name is required` and no effects. -/
theorem C2_first_falsy_or_blank_field_witness :
    validateData cfgReq.validateRequired [("name", JSVal.str "")] = some "name is required"
    ∧ submitToSheet cfgReq envPlain [("name", JSVal.str "")]
        = { state := { isSubmitting := false, error := some "name is required", success := false }
            fetches := [], successCalls := [], errorCalls := [], rejected := none } :=
  ⟨by decide,
   (C2_first_falsy_or_blank_field cfgReq envPlain [("name", JSVal.str "")]).2
     "name is required" (by decide)⟩

/-- Claim C3, counterexample. The claim says exactly one of `error` and
`success` is truthy after every completed attempt. When the `onSuccess`
callback throws, `setSuccess(true)` has already run and the `catch` block
then sets `error`, so both are truthy. -/
theorem C3_cex_throwing_onSuccess_both_truthy :
    strTruthy (submitToSheet cfgThrowingSuccess envPlain [("n", JSVal.str "A")]).state.error
        = true
    ∧ (submitToSheet cfgThrowingSuccess envPlain [("n", JSVal.str "A")]).state.success = true
    ∧ Bool.xor
        (strTruthy (submitToSheet cfgThrowingSuccess envPlain [("n", JSVal.str "A")]).state.error)
        (submitToSheet cfgThrowingSuccess envPlain [("n", JSVal.str "A")]).state.success
        = false := by
  refine ⟨?_, ?_, ?_⟩ <;> decide

/-- Claim C3, amended: after every completed submit attempt in which the
`onSuccess` callback does not throw and every thrown error carries a
non-empty message, exactly one of `error` and `success` is truthy; in the
idle state and in the submitting state both are falsy. -/
theorem C3_exactly_one_outcome (cfg : Config) (env : Env) (data : Record)
    (hS : ∀ cb, cfg.onSuccess = some cb → cb data = none)
    (hm1 : ∀ t, env.newURLThrows = some t → (errorMessageFor t == "") = false)
    (hm2 : ∀ t, env.fetchThrows = some t → (errorMessageFor t == "") = false)
    (hm3 : ∀ f t, cfg.transformData = some f → f data = Except.error t →
      (errorMessageFor t == "") = false) :
    Bool.xor (strTruthy (submitToSheet cfg env data).state.error)
        (submitToSheet cfg env data).state.success = true
    ∧ strTruthy initialState.error = false ∧ initialState.success = false
    ∧ strTruthy submittingState.error = false ∧ submittingState.success = false := by
  refine ⟨?_, rfl, rfl, rfl, rfl⟩
  cases hv : validateData cfg.validateRequired data with
  | some msg =>
    obtain ⟨f, rfl⟩ := validateData_some_shape _ data _ hv
    simp [submitToSheet, hv, strTruthy, required_message_ne_empty]
  | none =>
    cases hmiss : scriptUrlMissing env.scriptUrl with
    | true =>
      simp only [submitToSheet, hv, hmiss, if_true]
      decide
    | false =>
      cases hnew : env.newURLThrows with
      | some t =>
        simp only [submitToSheet, hv, hmiss, hnew, Bool.false_eq_true, if_false, runCatch_state]
        simp [strTruthy, hm1 t hnew]
      | none =>
        cases htr : applyTransform cfg data with
        | error t =>
          obtain ⟨f, hf, hft⟩ := applyTransform_error cfg data t htr
          simp only [submitToSheet, hv, hmiss, hnew, htr, Bool.false_eq_true, if_false,
            runCatch_state]
          simp [strTruthy, hm3 f t hf hft]
        | ok fd =>
          cases hfetch : env.fetchThrows with
          | some t =>
            simp only [submitToSheet, hv, hmiss, hnew, htr, hfetch, Bool.false_eq_true,
              if_false, runCatch_state]
            simp [strTruthy, hm2 t hfetch]
          | none =>
            cases hcb : cfg.onSuccess with
            | none =>
              simp [submitToSheet, hv, hmiss, hnew, htr, hfetch, hcb, strTruthy]
            | some cb =>
              have hcd := hS cb hcb
              simp [submitToSheet, hv, hmiss, hnew, htr, hfetch, hcb, hcd, strTruthy]

/-- Claim C3, witness: a plain successful submission has `success` truthy and
`error` falsy, and the idle and submitting states have both falsy. -/
theorem C3_exactly_one_outcome_witness :
    Bool.xor (strTruthy (submitToSheet cfgPlain envPlain [("n", JSVal.str "A")]).state.error)
        (submitToSheet cfgPlain envPlain [("n", JSVal.str "A")]).state.success = true
    ∧ strTruthy initialState.error = false ∧ initialState.success = false
    ∧ strTruthy submittingState.error = false ∧ submittingState.success = false :=
  C3_exactly_one_outcome cfgPlain envPlain [("n", JSVal.str "A")]
    (fun _ h => Option.noConfusion h)
    (fun _ h => Option.noConfusion h)
    (fun _ h => Option.noConfusion h)
    (fun _ _ h _ => Option.noConfusion h)

/-- Claim C4: for every record that passes validation, if the endpoint
configuration is absent (or blank, which is equally falsy), submit sets
`error` to exactly the configuration message, clears `submitting`, returns,
and makes no network call and no callback invocation; and the configuration
check runs only after validation: a record failing validation reports the
validation error even when the endpoint is missing. -/
theorem C4_config_error_after_validation (cfg : Config) (env : Env)
    (hmiss : scriptUrlMissing env.scriptUrl = true) :
    (∀ data, validateData cfg.validateRequired data = none →
      submitToSheet cfg env data
        = { state := { isSubmitting := false
                       error := some "Google Script URL not configured in environment variables"
                       success := false }
            fetches := [], successCalls := [], errorCalls := [], rejected := none })
    ∧ (∀ data m, validateData cfg.validateRequired data = some m →
      submitToSheet cfg env data
        = { state := { isSubmitting := false, error := some m, success := false }
            fetches := [], successCalls := [], errorCalls := [], rejected := none }) := by
  constructor
  · intro data hval
    simp [submitToSheet, hval, hmiss, configErrorMessage]
  · intro data m hval
    simp [submitToSheet, hval]

/-- Claim C4, witness: with required fields `name`, `email` satisfied and no
endpoint configured, the fixed configuration message is reported with no
effects; with `name` missing, the validation message wins instead. -/
theorem C4_config_error_after_validation_witness :
    scriptUrlMissing envNoUrl.scriptUrl = true
    ∧ submitToSheet cfgReq envNoUrl [("name", JSVal.str "A"), ("email", JSVal.str "a@b.com")]
        = { state := { isSubmitting := false
                       error := some "Google Script URL not configured in environment variables"
                       success := false }
            fetches := [], successCalls := [], errorCalls := [], rejected := none }
    ∧ submitToSheet cfgReq envNoUrl [("email", JSVal.str "a@b.com")]
        = { state := { isSubmitting := false, error := some "name is required", success := false }
            fetches := [], successCalls := [], errorCalls := [], rejected := none } :=
  ⟨rfl,
   (C4_config_error_after_validation cfgReq envNoUrl rfl).1
     [("name", JSVal.str "A"), ("email", JSVal.str "a@b.com")] (by decide),
   (C4_config_error_after_validation cfgReq envNoUrl rfl).2
     [("email", JSVal.str "a@b.com")] "name is required" (by decide)⟩

/-- Claim C5: whenever URL construction or the fetch throws `t` (after
validation and the configuration check pass), the final `error` is the
thrown error's message when it is an `Error`, the fixed fallback
`Failed to submit data` otherwise; `success` and `submitting` are false; and
`onError`, when supplied, is invoked exactly once with an `Error` wrapping
the failure. -/
theorem C5_transport_error_state (cfg : Config) (env : Env) (data : Record) (u : String)
    (t : Thrown)
    (hval : validateData cfg.validateRequired data = none)
    (hurl : env.scriptUrl = some u)
    (hu : (u == "") = false)
    (hthrow : env.newURLThrows = some t
      ∨ (env.newURLThrows = none ∧ (∃ fd, applyTransform cfg data = Except.ok fd)
          ∧ env.fetchThrows = some t)) :
    (submitToSheet cfg env data).state.error = some (errorMessageFor t)
    ∧ (submitToSheet cfg env data).state.success = false
    ∧ (submitToSheet cfg env data).state.isSubmitting = false
    ∧ (submitToSheet cfg env data).errorCalls
        = (match cfg.onError with | some _ => [wrapError t] | none => [])
    ∧ wrapError t = Thrown.errObj (errorMessageFor t) := by
  rcases hthrow with hnew | ⟨hnew, ⟨fd, hfd⟩, hfetch⟩
  · simp only [submitToSheet, hval, hurl, scriptUrlMissing, hu, Bool.false_eq_true, if_false,
      hnew, runCatch_state, runCatch_errorCalls]
    refine ⟨?_, ?_, ?_, ?_, ?_⟩ <;> trivial
  · simp only [submitToSheet, hval, hurl, scriptUrlMissing, hu, Bool.false_eq_true, if_false,
      hnew, hfd, hfetch, runCatch_state, runCatch_errorCalls]
    refine ⟨?_, ?_, ?_, ?_, ?_⟩ <;> trivial

/-- Claim C5, witness: a fetch that throws `Error("network down")` with a
supplied `onError` produces that message, no success, and one `onError`
invocation carrying the same error. -/
theorem C5_transport_error_state_witness :
    validateData cfgWithOnError.validateRequired [] = none
    ∧ envFetchFails.fetchThrows = some (Thrown.errObj "network down")
    ∧ (submitToSheet cfgWithOnError envFetchFails []).state.error = some "network down"
    ∧ (submitToSheet cfgWithOnError envFetchFails []).state.success = false
    ∧ (submitToSheet cfgWithOnError envFetchFails []).state.isSubmitting = false
    ∧ (submitToSheet cfgWithOnError envFetchFails []).errorCalls
        = [Thrown.errObj "network down"] := by
  have h := C5_transport_error_state cfgWithOnError envFetchFails [] "https://example.com"
    (Thrown.errObj "network down") rfl rfl (by decide)
    (Or.inr ⟨rfl, ⟨[], rfl⟩, rfl⟩)
  exact ⟨rfl, rfl, h.1, h.2.1, h.2.2.1, h.2.2.2.1⟩

/-- Claim C6, counterexample. The claim says that when steps 4–6 throw no
error, the final `error` is `null`. But step 7's `onSuccess` call can throw:
then `error` is set to its message even though transform, serialization and
transmit all succeeded. -/
theorem C6_cex_throwing_onSuccess_error_set :
    envPlain.newURLThrows = none
    ∧ envPlain.fetchThrows = none
    ∧ applyTransform cfgThrowingSuccess2 [] = Except.ok []
    ∧ (submitToSheet cfgThrowingSuccess2 envPlain []).state.error = some "boom"
    ∧ (submitToSheet cfgThrowingSuccess2 envPlain []).state.error ≠ none := by
  refine ⟨rfl, rfl, rfl, ?_, ?_⟩ <;> decide

/-- Claim C6, amended: when validation and the configuration check pass,
steps 4–6 (transform, serialize, transmit) throw no error, and the
`onSuccess` callback, when supplied, does not throw either, the final state
has `success = true`, `error = null`, `submitting = false`; `onSuccess` is
invoked exactly once with the original pre-transform record when supplied;
`onError` is never invoked; and the promise does not reject. -/
theorem C6_success_state (cfg : Config) (env : Env) (data : Record) (u : String) (fd : Record)
    (hval : validateData cfg.validateRequired data = none)
    (hurl : env.scriptUrl = some u)
    (hu : (u == "") = false)
    (hnew : env.newURLThrows = none)
    (htr : applyTransform cfg data = Except.ok fd)
    (hfetch : env.fetchThrows = none)
    (hcb : ∀ cb, cfg.onSuccess = some cb → cb data = none) :
    (submitToSheet cfg env data).state
        = { isSubmitting := false, error := none, success := true }
    ∧ (submitToSheet cfg env data).successCalls
        = (match cfg.onSuccess with | some _ => [data] | none => [])
    ∧ (submitToSheet cfg env data).errorCalls = []
    ∧ (submitToSheet cfg env data).rejected = none := by
  cases hS : cfg.onSuccess with
  | none =>
    simp [submitToSheet, hval, hurl, scriptUrlMissing, hu, hnew, htr, hfetch, hS]
  | some cb =>
    have hcd := hcb cb hS
    simp [submitToSheet, hval, hurl, scriptUrlMissing, hu, hnew, htr, hfetch, hS, hcd]

/-- Claim C6, witness: a successful submission with non-throwing callbacks
invokes `onSuccess` once with the original record and ends in the success
state. -/
theorem C6_success_state_witness :
    validateData cfgWithCallbacks.validateRequired [("a", JSVal.str "x")] = none
    ∧ (submitToSheet cfgWithCallbacks envPlain [("a", JSVal.str "x")]).state
        = { isSubmitting := false, error := none, success := true }
    ∧ (submitToSheet cfgWithCallbacks envPlain [("a", JSVal.str "x")]).successCalls
        = [[("a", JSVal.str "x")]]
    ∧ (submitToSheet cfgWithCallbacks envPlain [("a", JSVal.str "x")]).errorCalls = []
    ∧ (submitToSheet cfgWithCallbacks envPlain [("a", JSVal.str "x")]).rejected = none := by
  have h := C6_success_state cfgWithCallbacks envPlain [("a", JSVal.str "x")]
    "https://example.com" [("a", JSVal.str "x")] rfl rfl (by decide) rfl rfl rfl
    (fun cb hc => by injection hc with hc2; exact hc2 ▸ rfl)
  exact ⟨rfl, h.1, h.2.1, h.2.2.1, h.2.2.2⟩

/-- Claim C7: for every valid record with an endpoint configured and a
well-formed URL, a supplied transform that returns `out` makes the
constructed URL's query parameters exactly the serialization of `out` — each
parameter key comes from `out`, so nothing from the original record survives
unless the transform's output contains it — while with no transform the
record itself is serialized. -/
theorem C7_transform_params (cfg : Config) (env : Env) (data : Record) (u : String)
    (hval : validateData cfg.validateRequired data = none)
    (hurl : env.scriptUrl = some u)
    (hu : (u == "") = false)
    (hnew : env.newURLThrows = none) :
    (∀ f out, cfg.transformData = some f → f data = Except.ok out →
      (submitToSheet cfg env data).fetches = [(u, serializeParams out)]
      ∧ ∀ p ∈ serializeParams out, ∃ kv ∈ out, p.1 = kv.1)
    ∧ (cfg.transformData = none →
      (submitToSheet cfg env data).fetches = [(u, serializeParams data)]) := by
  constructor
  · intro f out hf hout
    have htr : applyTransform cfg data = Except.ok out := by
      unfold applyTransform; rw [hf]; exact hout
    refine ⟨submit_fetches_of_ok cfg env data u out hval hurl hu hnew htr, ?_⟩
    intro p hp
    unfold serializeParams at hp
    rw [List.mem_map] at hp
    obtain ⟨kv, hkv, hpe⟩ := hp
    exact ⟨kv, hkv, congrArg Prod.fst hpe.symm⟩
  · intro hf
    have htr : applyTransform cfg data = Except.ok data := by
      unfold applyTransform; rw [hf]
    exact submit_fetches_of_ok cfg env data u data hval hurl hu hnew htr

/-- Claim C7, witness: the spec's transform scenario — the record
`{name: "A", age: 5}` transformed to `{n: "A", a: 5}` serializes to
`n=A&a=5`, in the transform output's order. -/
theorem C7_transform_params_witness :
    cfgTransform.transformData.isSome = true
    ∧ (submitToSheet cfgTransform envPlain [("name", JSVal.str "A"), ("age", JSVal.num 5)]).fetches
        = [("https://example.com",
            serializeParams [("n", JSVal.str "A"), ("a", JSVal.num 5)])] := by
  have h := (C7_transform_params cfgTransform envPlain
    [("name", JSVal.str "A"), ("age", JSVal.num 5)] "https://example.com"
    rfl rfl (by decide) rfl).1
    (fun _ => Except.ok [("n", JSVal.str "A"), ("a", JSVal.num 5)])
    [("n", JSVal.str "A"), ("a", JSVal.num 5)] rfl rfl
  exact ⟨rfl, h.1⟩

/-- Claim C8, counterexample. The claim says submit never throws nor rejects
for any configuration. But the `onError` callback runs inside the `catch`
block: when the transport throws and `onError` itself throws, that second
exception escapes past `finally` and the promise rejects. -/
theorem C8_cex_throwing_onError_rejects :
    (submitToSheet cfgThrowingOnError envFetchFails []).rejected
        = some (Thrown.errObj "onError exploded")
    ∧ (submitToSheet cfgThrowingOnError envFetchFails []).rejected ≠ none := by
  constructor <;> decide

/-- Claim C8, amended: for every input record and every configuration whose
`onError` callback (when supplied) never throws, a call to submit never
throws and never returns a rejected promise — validation, configuration and
transport errors are recovered inside submit. -/
theorem C8_no_rejection (cfg : Config) (env : Env) (data : Record)
    (hE : ∀ cb t, cfg.onError = some cb → cb t = none) :
    (submitToSheet cfg env data).rejected = none := by
  cases hv : validateData cfg.validateRequired data with
  | some msg => simp [submitToSheet, hv]
  | none =>
    cases hmiss : scriptUrlMissing env.scriptUrl with
    | true => simp [submitToSheet, hv, hmiss]
    | false =>
      cases hnew : env.newURLThrows with
      | some t =>
        simp only [submitToSheet, hv, hmiss, hnew, Bool.false_eq_true, if_false]
        exact runCatch_rejected cfg t false [] [] hE
      | none =>
        cases htr : applyTransform cfg data with
        | error t =>
          simp only [submitToSheet, hv, hmiss, hnew, htr, Bool.false_eq_true, if_false]
          exact runCatch_rejected cfg t false [] [] hE
        | ok fd =>
          cases hfetch : env.fetchThrows with
          | some t =>
            simp only [submitToSheet, hv, hmiss, hnew, htr, hfetch, Bool.false_eq_true, if_false]
            exact runCatch_rejected cfg t false _ [] hE
          | none =>
            cases hcb : cfg.onSuccess with
            | none => simp [submitToSheet, hv, hmiss, hnew, htr, hfetch, hcb]
            | some cb =>
              cases hcd : cb data with
              | none => simp [submitToSheet, hv, hmiss, hnew, htr, hfetch, hcb, hcd]
              | some t =>
                simp only [submitToSheet, hv, hmiss, hnew, htr, hfetch, hcb, hcd,
                  Bool.false_eq_true, if_false]
                exact runCatch_rejected cfg t true _ _ hE

/-- Claim C8, witness: with no `onError` and a throwing transport, the error
is swallowed and the promise resolves. -/
theorem C8_no_rejection_witness :
    (submitToSheet cfgPlain envFetchFails []).rejected = none :=
  C8_no_rejection cfgPlain envFetchFails [] (fun _ _ h => Option.noConfusion h)

/-- Claim C9: from every prior state, `reset()` sets `error` to `null` and
`success` to `false`, leaves `submitting` unchanged, and does nothing else
to the state (the source calls exactly the two state setters, so the model
is a pure map on the state triple). -/
theorem C9_reset_clears_outcome : ∀ st : SheetState,
    reset st = { isSubmitting := st.isSubmitting, error := none, success := false } :=
  fun _ => rfl

/-- Claim C10: when the transmit succeeded and the supplied `onSuccess`
callback throws `t`, the `catch` block sets `error` to the extracted message
of `t`, `success` remains `true` (both outcome fields end up truthy),
`finally` still clears `submitting`, `onSuccess` was invoked once with the
original record, and `onError`, when supplied, is invoked once with an
`Error` wrapping `t`. -/
theorem C10_onSuccess_throw_caught (cfg : Config) (env : Env) (data : Record) (u : String)
    (fd : Record) (cb : Record → Option Thrown) (t : Thrown)
    (hval : validateData cfg.validateRequired data = none)
    (hurl : env.scriptUrl = some u)
    (hu : (u == "") = false)
    (hnew : env.newURLThrows = none)
    (htr : applyTransform cfg data = Except.ok fd)
    (hfetch : env.fetchThrows = none)
    (hcb : cfg.onSuccess = some cb)
    (hthrow : cb data = some t) :
    (submitToSheet cfg env data).state
        = { isSubmitting := false, error := some (errorMessageFor t), success := true }
    ∧ (submitToSheet cfg env data).successCalls = [data]
    ∧ (submitToSheet cfg env data).errorCalls
        = (match cfg.onError with | some _ => [wrapError t] | none => []) := by
  simp only [submitToSheet, hval, hurl, scriptUrlMissing, hu, Bool.false_eq_true, if_false,
    hnew, htr, hfetch, hcb, hthrow, runCatch_state, runCatch_successCalls, runCatch_errorCalls]
  refine ⟨?_, ?_, ?_⟩ <;> trivial

/-- Claim C10, witness: a submission whose `onSuccess` throws
`Error("late failure")` while a non-throwing `onError` is installed ends with
that message, `success` still true, one `onSuccess` call and one `onError`
call. -/
theorem C10_onSuccess_throw_caught_witness :
    cfgThrowingSuccessHandled.onSuccess
        = some (fun _ => some (Thrown.errObj "late failure"))
    ∧ (submitToSheet cfgThrowingSuccessHandled envPlain [("k", JSVal.str "v")]).state
        = { isSubmitting := false, error := some "late failure", success := true }
    ∧ (submitToSheet cfgThrowingSuccessHandled envPlain [("k", JSVal.str "v")]).successCalls
        = [[("k", JSVal.str "v")]]
    ∧ (submitToSheet cfgThrowingSuccessHandled envPlain [("k", JSVal.str "v")]).errorCalls
        = [Thrown.errObj "late failure"] := by
  have h := C10_onSuccess_throw_caught cfgThrowingSuccessHandled envPlain
    [("k", JSVal.str "v")] "https://example.com" [("k", JSVal.str "v")]
    (fun _ => some (Thrown.errObj "late failure")) (Thrown.errObj "late failure")
    rfl rfl (by decide) rfl rfl rfl rfl rfl
  exact ⟨rfl, h.1, h.2.1, h.2.2⟩

end GoogleSheets
